import Mathlib

/-!
Verification of the response-normalization and fetch logic of `src/app.py`
(the `fetch_data` function of the Amazon book analyzer).

The Python code is shallowly embedded as follows.

* Python values flowing through the JSON payload are modelled by the
  inductive type `PyVal` (None, bool, int, float, str, list, dict).
  Python floats are modelled as exact rationals `ℚ`; dicts are modelled as
  association lists looked up by first occurrence of a key.
* Fallible Python expressions (ones that can raise) are modelled in
  `Except String`, the `String` being the exception message; the messages
  follow the CPython wording minus quote characters.
* `float(x)` / `int(x)` / `str(x)` are modelled by `pyFloat` / `pyInt` /
  `pyStr`.  The Python `float` literal grammar is modelled by `parseFloatL`
  restricted to its decimal core (optional sign, digits, at most one dot);
  exotic inputs (exponents, inf/nan, underscores, surrounding whitespace)
  are outside the model and none of the claims exercise them.
* `str.replace` and `str.split(sep)[0]` are modelled on `List Char` by
  `listReplace` (leftmost, non-overlapping, all occurrences) and
  `splitHead` (the initial segment before the first occurrence of the separator,
  which is exactly `.split(sep)[0]` for a non-empty separator).
* The HTTP layer (`requests.get` plus `response.json()`) is modelled as an
  oracle argument `net` mapping the query string to either a decoded JSON
  body or a transport/decoding exception message.  The second component of
  the `fetch_data` result counts outbound network calls.
-/

/-- A Python value as it appears in the decoded JSON payload of
`fetch_data` (src/app.py line 62).  Floats are modelled as exact
rationals. -/
inductive PyVal where
  | none
  | bool (b : Bool)
  | int (n : ℤ)
  | float (q : ℚ)
  | str (s : String)
  | list (xs : List PyVal)
  | dict (fields : List (String × PyVal))

/-- Python truthiness (`if x:`): None, False, zero, and empty containers
are falsy. -/
def PyVal.truthy : PyVal → Bool
  | .none => false
  | .bool b => b
  | .int n => decide (n ≠ 0)
  | .float q => decide (q ≠ 0)
  | .str s => decide (s ≠ "")
  | .list xs => !xs.isEmpty
  | .dict fs => !fs.isEmpty

/-- The name of the Python type of a value, used in exception messages. -/
def pyTypeName : PyVal → String
  | .none => "NoneType"
  | .bool _ => "bool"
  | .int _ => "int"
  | .float _ => "float"
  | .str _ => "str"
  | .list _ => "list"
  | .dict _ => "dict"

/-- Lookup of a key in a dict modelled as an association list (first
binding wins; Python dicts have unique keys, so the convention is
immaterial on faithful inputs). -/
def lookupKey (fields : List (String × PyVal)) (k : String) : Option PyVal :=
  match fields.find? (fun p => p.1 == k) with
  | some p => some p.2
  | Option.none => Option.none

/-- Python `d.get(k, default)`. -/
def dictGetD (fields : List (String × PyVal)) (k : String) (d : PyVal) : PyVal :=
  (lookupKey fields k).getD d

/-- Whether `s` starts with `pat` (Boolean, on character lists). -/
def isPrefixList : List Char → List Char → Bool
  | [], _ => true
  | _ :: _, [] => false
  | p :: ps, c :: cs => p == c && isPrefixList ps cs

/-- Whether `pat` occurs as a contiguous substring of `s`; model of
Python `pat in s` for strings. -/
def containsSub : List Char → List Char → Bool
  | [], pat => pat.isEmpty
  | c :: cs, pat => isPrefixList pat (c :: cs) || containsSub cs pat

/-- Worker for `listReplace`.  The `ℕ` argument is the number of
characters still to be skipped because they belong to an already-matched
occurrence of the pattern. -/
def replaceAux (pat repl : List Char) : ℕ → List Char → List Char
  | _, [] => []
  | 0, c :: cs =>
      if isPrefixList pat (c :: cs) then
        repl ++ replaceAux pat repl (pat.length - 1) cs
      else
        c :: replaceAux pat repl 0 cs
  | n + 1, _ :: cs => replaceAux pat repl n cs

/-- Model of Python `s.replace(pat, repl)` for a non-empty pattern:
replace every leftmost non-overlapping occurrence. -/
def listReplace (pat repl s : List Char) : List Char :=
  replaceAux pat repl 0 s

/-- Model of Python `s.split(sep)[0]` for a non-empty separator: the
initial segment of `s` before the first occurrence of `sep` (all of `s` when `sep`
does not occur). -/
def splitHead (sep : List Char) : List Char → List Char
  | [] => []
  | c :: cs => if isPrefixList sep (c :: cs) then [] else c :: splitHead sep cs

/-- The `"$"` pattern of src/app.py line 74. -/
def dollarPat : List Char := ['$']

/-- The `","` pattern of src/app.py line 74. -/
def commaPat : List Char := [',']

/-- The `"from "` pattern of src/app.py line 74. -/
def fromPat : List Char := ['f', 'r', 'o', 'm', ' ']

/-- The `" - "` separator of src/app.py line 74. -/
def dashPat : List Char := [' ', '-', ' ']

/-- The price-cleaning pipeline of src/app.py line 74:
`str(raw_price).replace("$", "").replace(",", "").replace("from ", "").split(" - ")[0]`. -/
def cleanPriceL (s : List Char) : List Char :=
  splitHead dashPat
    (listReplace fromPat [] (listReplace commaPat [] (listReplace dollarPat [] s)))

/-- The natural number denoted by a list of decimal digits (most
significant first). -/
def natOfDigits (cs : List Char) : ℕ :=
  cs.foldl (fun a c => 10 * a + (c.toNat - 48)) 0

/-- Parse a non-empty all-digit string as a natural number. -/
def parseNatDigits (cs : List Char) : Option ℕ :=
  if !cs.isEmpty && cs.all Char.isDigit then some (natOfDigits cs) else Option.none

/-- Parse an unsigned decimal numeral (digits with at most one dot, at
least one digit) as a rational; the decimal core of Python `float(str)`.
The value is built with `mkRat` so that it evaluates by kernel
reduction. -/
def parseUFloat (cs : List Char) : Option ℚ :=
  let ip := cs.takeWhile (fun c => c ≠ '.')
  let rest := cs.dropWhile (fun c => c ≠ '.')
  match rest with
  | [] => if !ip.isEmpty && ip.all Char.isDigit then some (mkRat (natOfDigits ip) 1) else Option.none
  | _ :: fp =>
      if (!ip.isEmpty || !fp.isEmpty) && ip.all Char.isDigit && fp.all Char.isDigit then
        some (mkRat (natOfDigits ip * 10 ^ fp.length + natOfDigits fp) (10 ^ fp.length))
      else Option.none

/-- Model of Python `float(str)` (decimal core): optional sign followed
by an unsigned decimal numeral. -/
def parseFloatL : List Char → Option ℚ
  | '+' :: cs => parseUFloat cs
  | '-' :: cs => (parseUFloat cs).map Rat.neg
  | cs => parseUFloat cs

/-- Model of Python `int(str)`: optional sign followed by a non-empty
digit string. -/
def parseIntL : List Char → Option ℤ
  | '+' :: cs => (parseNatDigits cs).map Int.ofNat
  | '-' :: cs => (parseNatDigits cs).map (fun n => -(n : ℤ))
  | cs => (parseNatDigits cs).map Int.ofNat

/-- Decimal rendering of a rational with a finite decimal expansion;
model of `str()` on a Python float.  Unused by the claims (no claim feeds
a numeric raw price to the normalizer). -/
def decStr (q : ℚ) : String :=
  let sgn := if q < 0 then "-" else ""
  let n := q.num.natAbs
  let d := q.den
  match (List.range 400).find? (fun k => 10 ^ k % d == 0) with
  | some k =>
      let m := n * 10 ^ k / d
      let s := toString m
      let s := if s.length ≤ k then
          String.mk (List.replicate (k + 1 - s.length) '0') ++ s
        else s
      let ip := s.take (s.length - k)
      let fp := s.drop (s.length - k)
      sgn ++ ip ++ "." ++ (if fp = "" then "0" else fp)
  | Option.none => sgn ++ toString n ++ "/" ++ toString d

/-- Model of Python `str(x)` for the values that can reach it in
src/app.py line 74 (list/dict renderings are not modelled; no claim
exercises them). -/
def pyStr : PyVal → String
  | .str s => s
  | .none => "None"
  | .bool b => if b then "True" else "False"
  | .int n => toString n
  | .float q => decStr q
  | .list _ => "[unmodelled list repr]"
  | .dict _ => "(unmodelled dict repr)"

/-- Model of Python `float(x)` on an arbitrary value (src/app.py line
80): strings are parsed, numbers and booleans are coerced, everything
else raises TypeError. -/
def pyFloat : PyVal → Except String ℚ
  | .str s =>
      match parseFloatL s.data with
      | some q => Except.ok q
      | Option.none => Except.error ("could not convert string to float: " ++ s)
  | .int n => Except.ok (n : ℚ)
  | .float q => Except.ok q
  | .bool b => Except.ok (if b then 1 else 0)
  | v => Except.error ("float() argument must be a string or a real number, not " ++ pyTypeName v)

/-- Model of Python `int(x)` on an arbitrary value (src/app.py line 83):
strings must be integer literals, floats truncate toward zero, booleans
coerce, everything else raises TypeError. -/
def pyInt : PyVal → Except String ℤ
  | .str s =>
      match parseIntL s.data with
      | some n => Except.ok n
      | Option.none => Except.error ("invalid literal for int() with base 10: " ++ s)
  | .int n => Except.ok n
  | .float q => Except.ok (q.num.tdiv (q.den : ℤ))
  | .bool b => Except.ok (if b then 1 else 0)
  | v => Except.error ("int() argument must be a string, a bytes-like object or a real number, not " ++ pyTypeName v)

/-- The price computation of src/app.py lines 70-77: default 0.0; when
the raw value is truthy, clean and parse it, with every parse failure
caught and defaulted to 0.0 by the inner `try/except`. -/
def priceOf (raw_price : PyVal) : ℚ :=
  if raw_price.truthy then
    match parseFloatL (cleanPriceL (pyStr raw_price).data) with
    | some q => q
    | Option.none => 0
  else 0

/-- The rating computation of src/app.py lines 79-80:
`float(raw_rating) if raw_rating else 0.0` — note that `float` here is
NOT guarded by a `try/except`, so its exceptions propagate. -/
def ratingOf (raw_rating : PyVal) : Except String ℚ :=
  if raw_rating.truthy then pyFloat raw_rating else Except.ok 0

/-- The review-count computation of src/app.py lines 82-83:
`int(raw_reviews) if raw_reviews else 0` — `int` is NOT guarded by a
`try/except`, so its exceptions propagate. -/
def reviewsOf (raw_reviews : PyVal) : Except String ℤ :=
  if raw_reviews.truthy then pyInt raw_reviews else Except.ok 0

/-- Python string equality test used by `x in list-value` membership. -/
def pyEqStr (v : PyVal) (s : String) : Bool :=
  match v with
  | .str t => t == s
  | _ => false

/-- Model of Python `needle in hay` (src/app.py lines 87-91): substring
test on strings, element membership on lists, key membership on dicts,
TypeError on anything else. -/
def pyContains (hay : PyVal) (needle : String) : Except String Bool :=
  match hay with
  | .str s => Except.ok (containsSub s.data needle.data)
  | .list xs => Except.ok (xs.any (fun v => pyEqStr v needle))
  | .dict fs => Except.ok (fs.any (fun p => p.1 == needle))
  | v => Except.error ("argument of type " ++ pyTypeName v ++ " is not iterable")

/-- The format inference of src/app.py lines 86-92: check "Paperback",
then "Hardcover", then "Audiobook" against the title, first match wins,
default "Standard".  The membership tests can raise (non-iterable
title). -/
def formatOf (title : PyVal) : Except String String :=
  match pyContains title "Paperback" with
  | Except.error e => Except.error e
  | Except.ok true => Except.ok "Paperback"
  | Except.ok false =>
      match pyContains title "Hardcover" with
      | Except.error e => Except.error e
      | Except.ok true => Except.ok "Hardcover"
      | Except.ok false =>
          match pyContains title "Audiobook" with
          | Except.error e => Except.error e
          | Except.ok true => Except.ok "Audiobook"
          | Except.ok false => Except.ok "Standard"

/-- Substring test on Lean strings (model of Python `pat in s`). -/
def strContainsSub (s pat : String) : Bool :=
  containsSub s.data pat.data

/-- One row appended to `clean_data` by src/app.py lines 94-103.  Fields
whose value the code merely copies out of the raw item (`Title`, the
best-seller label, `Image`, `Link`) keep their dynamic `PyVal` type;
fields the code computes through `float`/`int`/string operations get the
corresponding Lean type. -/
structure Record where
  Title : PyVal
  Rating : ℚ
  Reviews : ℤ
  Price : ℚ
  Format : String
  Best_Seller : PyVal
  Image : PyVal
  Link : PyVal

/-- A throwaway record used only as the out-of-range default of list
indexing in theorem statements. -/
def defaultRecord : Record :=
  ⟨PyVal.str "", 0, 0, 0, "", PyVal.str "", PyVal.str "", PyVal.str "#"⟩

/-- The body of the normalization loop of src/app.py lines 69-103 on one
raw item (given as the dict fields of the item).  Field-level computations run
in source order: price (exception-safe), rating, reviews, then format;
the first uncaught exception aborts the item. -/
def normalizeItemD (item : List (String × PyVal)) : Except String Record :=
  match ratingOf (dictGetD item "product_star_rating" PyVal.none) with
  | Except.error e => Except.error e
  | Except.ok rating =>
      match reviewsOf (dictGetD item "product_num_ratings" PyVal.none) with
      | Except.error e => Except.error e
      | Except.ok reviews =>
          match formatOf (dictGetD item "product_title" (PyVal.str "Unknown")) with
          | Except.error e => Except.error e
          | Except.ok fmt =>
              Except.ok
                { Title := dictGetD item "product_title" (PyVal.str "Unknown")
                  Rating := rating
                  Reviews := reviews
                  Price := priceOf (dictGetD item "product_price" PyVal.none)
                  Format := fmt
                  Best_Seller :=
                    if (dictGetD item "is_best_seller" PyVal.none).truthy then
                      PyVal.str "Yes"
                    else PyVal.str "No"
                  Image := dictGetD item "product_photo" (PyVal.str "")
                  Link := dictGetD item "product_url" (PyVal.str "#") }

/-- Normalization of one element of `products`: a non-dict item raises
AttributeError at the first `.get` (src/app.py line 70). -/
def normalizeItemV : PyVal → Except String Record
  | .dict fields => normalizeItemD fields
  | v => Except.error (pyTypeName v ++ " object has no attribute get")

/-- The normalization loop of src/app.py lines 68-103 over the whole
product list: records accumulate in input order and the first uncaught
exception aborts the loop. -/
def normalizeAll : List PyVal → Except String (List Record)
  | [] => Except.ok []
  | item :: rest =>
      match normalizeItemV item with
      | Except.error e => Except.error e
      | Except.ok r =>
          match normalizeAll rest with
          | Except.error e => Except.error e
          | Except.ok rs => Except.ok (r :: rs)

/-- Model of Python `v.get(k, d)` on an arbitrary value (src/app.py line
63): only dicts have `.get`; anything else raises AttributeError. -/
def pyGetAttrD (v : PyVal) (k : String) (d : PyVal) : Except String PyVal :=
  match v with
  | .dict fs => Except.ok (dictGetD fs k d)
  | w => Except.error (pyTypeName w ++ " object has no attribute get")

/-- Model of Python iteration `for item in products` (src/app.py line
69): lists yield elements, strings yield characters, dicts yield keys,
anything else raises TypeError. -/
def pyIterate : PyVal → Except String (List PyVal)
  | .list xs => Except.ok xs
  | .str s => Except.ok (s.data.map (fun c => PyVal.str (String.mk [c])))
  | .dict fs => Except.ok (fs.map (fun p => PyVal.str p.1))
  | v => Except.error (pyTypeName v ++ " object is not iterable")

/-- Everything src/app.py lines 63-105 does with a successfully decoded
response body: resolve `data.products` (missing levels default to `{}` /
`[]`), return the "No products found." pair on a falsy product list, and
otherwise normalize every item. -/
def fetchBody (body : PyVal) : Except String (List Record × Option String) :=
  match pyGetAttrD body "data" (PyVal.dict []) with
  | Except.error e => Except.error e
  | Except.ok d1 =>
      match pyGetAttrD d1 "products" (PyVal.list []) with
      | Except.error e => Except.error e
      | Except.ok products =>
          if products.truthy then
            match pyIterate products with
            | Except.error e => Except.error e
            | Except.ok items =>
                match normalizeAll items with
                | Except.error e => Except.error e
                | Except.ok recs => Except.ok (recs, Option.none)
          else Except.ok ([], some "No products found.")

/-- The body of the `try` block of src/app.py lines 60-105: the network
and JSON-decoding step followed by `fetchBody`. -/
def runFetch (resp : Except String PyVal) : Except String (List Record × Option String) :=
  match resp with
  | Except.error e => Except.error e
  | Except.ok body => fetchBody body

/-- The query string built by src/app.py lines 47-53. -/
def querystringOf (query sort_code : String) : List (String × String) :=
  [("query", query), ("page", "1"), ("country", "US"),
   ("sort_by", sort_code), ("category_id", "books")]

/-- Model of `fetch_data` (src/app.py lines 38-108).  `api_key` is
`os.getenv("RAPIDAPI_KEY")`; `net` is the transport oracle standing for
`requests.get(...)` followed by `response.json()`, mapping the query
string to the decoded body or to the exception message of a
transport/decoding failure.  The `ℕ` component of the result counts
outbound network calls.  The empty DataFrame of the Python code is the
empty record list. -/
def fetch_data (query sort_code : String) (api_key : Option String)
    (net : List (String × String) → Except String PyVal) :
    (List Record × Option String) × ℕ :=
  if api_key.getD "" = "" then
    (([], some "Missing API key in environment variables."), 0)
  else
    match runFetch (net (querystringOf query sort_code)) with
    | Except.ok r => (r, 1)
    | Except.error e => (([], some ("Server Error: " ++ e)), 1)

/-- A response body whose `data.products` is the given list. -/
def mkBody (items : List PyVal) : PyVal :=
  PyVal.dict [("data", PyVal.dict [("products", PyVal.list items)])]

/-- Whether an error slot holds a "Server Error: <cause>" message. -/
def isServerErrorMsg : Option String → Bool
  | some m => isPrefixList ("Server Error: ".data) m.data
  | Option.none => false

/-- Whether a fallible computation succeeded. -/
def isOkE {α : Type} : Except String α → Bool
  | Except.ok _ => true
  | Except.error _ => false

/-- Characters allowed in the numeral part of a price: digits, the
decimal point, and the thousands separator. -/
def isPriceChar (c : Char) : Bool :=
  c.isDigit || c == '.' || c == ','

/-- The raw characters of a price of the form `"from $X - $Y"`. -/
def priceRangeChars (X Y : List Char) : List Char :=
  'f' :: 'r' :: 'o' :: 'm' :: ' ' :: '$' :: (X ++ ' ' :: '-' :: ' ' :: '$' :: Y)

/-- The raw item of the end-to-end example of the spec (claim C2). -/
def c2Item : PyVal :=
  PyVal.dict
    [("product_title", PyVal.str "Clean Code Paperback Edition"),
     ("product_price", PyVal.str "from $29.99 - $45.00"),
     ("product_star_rating", PyVal.str "4.7"),
     ("product_num_ratings", PyVal.str "1500"),
     ("is_best_seller", PyVal.bool true)]

/-- The record the code actually produces for `c2Item` (the best-seller
flag becomes the string "Yes"). -/
def c2ActualRec : Record :=
  { Title := PyVal.str "Clean Code Paperback Edition"
    Rating := mkRat 47 10
    Reviews := 1500
    Price := mkRat 2999 100
    Format := "Paperback"
    Best_Seller := PyVal.str "Yes"
    Image := PyVal.str ""
    Link := PyVal.str "#" }

/-- The record claim C2 asserts: identical to `c2ActualRec` except that
BestSeller is claimed to be the boolean truthiness of the raw flag,
i.e. the Python value `True`. -/
def c2ClaimedRec : Record :=
  { c2ActualRec with Best_Seller := PyVal.bool true }

/-- A one-item product list whose rating is a present but non-numeric
string (counterexample input of claim C1). -/
def c1CexItem : PyVal :=
  PyVal.dict
    [("product_title", PyVal.str "Some Book"),
     ("product_star_rating", PyVal.str "abc")]

/-- A one-item product list whose review count is a present but
non-numeric string (counterexample input of claim C3). -/
def c3CexItem : PyVal :=
  PyVal.dict
    [("product_title", PyVal.str "Another Book"),
     ("product_num_ratings", PyVal.str "N/A")]

/-- A well-formed raw item used to instantiate hypotheses in witness
theorems. -/
def witnessItem : PyVal :=
  PyVal.dict [("product_title", PyVal.str "A Paperback Guide")]

/-- The record the code produces for `witnessItem`. -/
def witnessRec : Record :=
  { Title := PyVal.str "A Paperback Guide"
    Rating := 0
    Reviews := 0
    Price := 0
    Format := "Paperback"
    Best_Seller := PyVal.str "No"
    Image := PyVal.str ""
    Link := PyVal.str "#" }

theorem isPrefixList_append_self (p t : List Char) : isPrefixList p (p ++ t) = true := by
  induction p with
  | nil => rfl
  | cons c cs ih => simp [isPrefixList, ih]

theorem replaceAux_skip (pat repl d s : List Char) :
    replaceAux pat repl d.length (d ++ s) = replaceAux pat repl 0 s := by
  induction d with
  | nil => rfl
  | cons c cs ih => simpa [replaceAux] using ih

theorem replaceAux_of_head_not_mem (p : Char) (ps repl s : List Char) (h : p ∉ s) :
    replaceAux (p :: ps) repl 0 s = s := by
  induction s with
  | nil => rfl
  | cons c cs ih =>
      have hpc : (p == c) = false := by
        rw [beq_eq_false_iff_ne]
        intro he
        exact h (he ▸ List.mem_cons_self c cs)
      have hcs : p ∉ cs := fun hm => h (List.mem_cons_of_mem c hm)
      simp [replaceAux, isPrefixList, hpc, ih hcs]

theorem splitHead_of_head_not_mem (c0 : Char) (cs0 s : List Char) (h : c0 ∉ s) :
    splitHead (c0 :: cs0) s = s := by
  induction s with
  | nil => rfl
  | cons c cs ih =>
      have hpc : (c0 == c) = false := by
        rw [beq_eq_false_iff_ne]
        intro he
        exact h (he ▸ List.mem_cons_self c cs)
      have hcs : c0 ∉ cs := fun hm => h (List.mem_cons_of_mem c hm)
      simp [splitHead, isPrefixList, hpc, ih hcs]

theorem splitHead_append (c0 : Char) (cs0 a b : List Char) (h : c0 ∉ a) :
    splitHead (c0 :: cs0) (a ++ ((c0 :: cs0) ++ b)) = a := by
  induction a with
  | nil =>
      have h1 : isPrefixList (c0 :: cs0) ((c0 :: cs0) ++ b) = true :=
        isPrefixList_append_self _ _
      simp only [List.nil_append, List.cons_append] at h1 ⊢
      simp [splitHead, h1]
  | cons x xs ih =>
      have hpx : (c0 == x) = false := by
        rw [beq_eq_false_iff_ne]
        intro he
        exact h (he ▸ List.mem_cons_self x xs)
      have hxs : c0 ∉ xs := fun hm => h (List.mem_cons_of_mem x hm)
      simp only [List.cons_append, splitHead, isPrefixList, hpx, Bool.false_and,
        Bool.if_false_left, Bool.and_true]
      simpa using ih hxs

theorem listReplace_single_filter (c : Char) (s : List Char) :
    listReplace [c] [] s = s.filter (fun a => !(a == c)) := by
  induction s with
  | nil => rfl
  | cons a as ih =>
      unfold listReplace at ih ⊢
      cases h : (c == a) with
      | true =>
          have hac : (a == c) = true := by
            rw [beq_iff_eq] at h ⊢
            exact h.symm
          simp [replaceAux, isPrefixList, h, hac, ih]
      | false =>
          have hac : (a == c) = false := by
            rw [beq_eq_false_iff_ne] at h ⊢
            exact fun he => h he.symm
          simp [replaceAux, isPrefixList, h, hac, ih]

theorem lookupKey_cons (k k' : String) (v : PyVal) (fs : List (String × PyVal)) :
    lookupKey ((k, v) :: fs) k' =
      if (k == k') = true then some v else lookupKey fs k' := by
  unfold lookupKey
  cases h : (k == k') <;> simp [List.find?, h]

theorem dictGetD_cons (k k' : String) (v d : PyVal) (fs : List (String × PyVal)) :
    dictGetD ((k, v) :: fs) k' d = if (k == k') = true then v else dictGetD fs k' d := by
  unfold dictGetD
  rw [lookupKey_cons]
  cases h : (k == k') <;> simp [h]

theorem not_mem_of_all_isPriceChar (X : List Char) (hX : X.all isPriceChar = true)
    (c : Char) (hc : isPriceChar c = false) : c ∉ X := by
  intro hm
  rw [List.all_eq_true] at hX
  exact absurd (hX c hm) (by rw [hc]; exact Bool.false_ne_true)

theorem filter_dollar_of_isPriceChar (X : List Char) (hX : X.all isPriceChar = true) :
    X.filter (fun a => !(a == '$')) = X := by
  rw [List.filter_eq_self]
  intro a ha
  rw [List.all_eq_true] at hX
  have h1 := hX a ha
  rcases h2 : (a == '$') with _ | _
  · rfl
  · rw [beq_iff_eq] at h2
    rw [h2] at h1
    exact absurd h1 (by decide)

theorem comma_filter_all (X : List Char) (hX : X.all isPriceChar = true) :
    (X.filter (fun a => !(a == ','))).all isPriceChar = true := by
  rw [List.all_eq_true] at hX ⊢
  intro c hc
  exact hX c (List.mem_of_mem_filter hc)

theorem cleanPriceL_dollar (X : List Char) (hX : X.all isPriceChar = true) :
    cleanPriceL ('$' :: X) = X.filter (fun a => !(a == ',')) := by
  have h1 : listReplace dollarPat [] ('$' :: X) = X := by
    rw [show dollarPat = ['$'] from rfl, listReplace_single_filter]
    rw [show List.filter (fun a => !(a == '$')) ('$' :: X) =
        List.filter (fun a => !(a == '$')) X from rfl]
    exact filter_dollar_of_isPriceChar X hX
  have h2 : listReplace commaPat [] X = X.filter (fun a => !(a == ',')) := by
    rw [show commaPat = [','] from rfl, listReplace_single_filter]
  have hall := comma_filter_all X hX
  have h3 : listReplace fromPat [] (X.filter (fun a => !(a == ','))) =
      X.filter (fun a => !(a == ',')) := by
    rw [show fromPat = 'f' :: ['r', 'o', 'm', ' '] from rfl]
    exact replaceAux_of_head_not_mem 'f' _ [] _
      (not_mem_of_all_isPriceChar _ hall 'f' (by decide))
  have h4 : splitHead dashPat (X.filter (fun a => !(a == ','))) =
      X.filter (fun a => !(a == ',')) := by
    rw [show dashPat = ' ' :: ['-', ' '] from rfl]
    exact splitHead_of_head_not_mem ' ' _ _
      (not_mem_of_all_isPriceChar _ hall ' ' (by decide))
  unfold cleanPriceL
  rw [h1, h2, h3, h4]

theorem cleanPriceL_range (X Y : List Char)
    (hX : X.all isPriceChar = true) (hY : Y.all isPriceChar = true) :
    cleanPriceL (priceRangeChars X Y) = X.filter (fun a => !(a == ',')) := by
  have hXd := filter_dollar_of_isPriceChar X hX
  have hYd := filter_dollar_of_isPriceChar Y hY
  have h1 : listReplace dollarPat [] (priceRangeChars X Y) =
      'f' :: 'r' :: 'o' :: 'm' :: ' ' :: (X ++ ' ' :: '-' :: ' ' :: Y) := by
    rw [show dollarPat = ['$'] from rfl, listReplace_single_filter]
    rw [show List.filter (fun a => !(a == '$')) (priceRangeChars X Y) =
        'f' :: 'r' :: 'o' :: 'm' :: ' ' ::
          List.filter (fun a => !(a == '$')) (X ++ ' ' :: '-' :: ' ' :: '$' :: Y) from rfl]
    rw [List.filter_append]
    rw [show List.filter (fun a => !(a == '$')) (' ' :: '-' :: ' ' :: '$' :: Y) =
        ' ' :: '-' :: ' ' :: List.filter (fun a => !(a == '$')) Y from rfl]
    rw [hXd, hYd]
  have hallX := comma_filter_all X hX
  have hallY := comma_filter_all Y hY
  have h2 : listReplace commaPat [] ('f' :: 'r' :: 'o' :: 'm' :: ' ' :: (X ++ ' ' :: '-' :: ' ' :: Y)) =
      'f' :: 'r' :: 'o' :: 'm' :: ' ' ::
        (X.filter (fun a => !(a == ',')) ++ ' ' :: '-' :: ' ' :: Y.filter (fun a => !(a == ','))) := by
    rw [show commaPat = [','] from rfl, listReplace_single_filter]
    rw [show List.filter (fun a => !(a == ','))
          ('f' :: 'r' :: 'o' :: 'm' :: ' ' :: (X ++ ' ' :: '-' :: ' ' :: Y)) =
        'f' :: 'r' :: 'o' :: 'm' :: ' ' ::
          List.filter (fun a => !(a == ',')) (X ++ ' ' :: '-' :: ' ' :: Y) from rfl]
    rw [List.filter_append]
    rw [show List.filter (fun a => !(a == ',')) (' ' :: '-' :: ' ' :: Y) =
        ' ' :: '-' :: ' ' :: List.filter (fun a => !(a == ',')) Y from rfl]
  have hmem : 'f' ∉ X.filter (fun a => !(a == ',')) ++ ' ' :: '-' :: ' ' :: Y.filter (fun a => !(a == ',')) := by
    intro hm
    rcases List.mem_append.mp hm with hm1 | hm2
    · exact not_mem_of_all_isPriceChar _ hallX 'f' (by decide) hm1
    · simp only [List.mem_cons] at hm2
      rcases hm2 with h | h | h | hm3
      · exact absurd h (by decide)
      · exact absurd h (by decide)
      · exact absurd h (by decide)
      · exact not_mem_of_all_isPriceChar _ hallY 'f' (by decide) hm3
  have h3 : listReplace fromPat []
      ('f' :: 'r' :: 'o' :: 'm' :: ' ' ::
        (X.filter (fun a => !(a == ',')) ++ ' ' :: '-' :: ' ' :: Y.filter (fun a => !(a == ',')))) =
      X.filter (fun a => !(a == ',')) ++ ' ' :: '-' :: ' ' :: Y.filter (fun a => !(a == ',')) := by
    unfold listReplace
    rw [show replaceAux fromPat [] 0
        ('f' :: 'r' :: 'o' :: 'm' :: ' ' ::
          (X.filter (fun a => !(a == ',')) ++ ' ' :: '-' :: ' ' :: Y.filter (fun a => !(a == ',')))) =
        replaceAux fromPat [] (fromPat.length - 1)
          ('r' :: 'o' :: 'm' :: ' ' ::
            (X.filter (fun a => !(a == ',')) ++ ' ' :: '-' :: ' ' :: Y.filter (fun a => !(a == ',')))) from by
      simp [replaceAux, isPrefixList]]
    rw [show (fromPat.length - 1) = (['r', 'o', 'm', ' '] : List Char).length from rfl]
    rw [show ('r' :: 'o' :: 'm' :: ' ' ::
        (X.filter (fun a => !(a == ',')) ++ ' ' :: '-' :: ' ' :: Y.filter (fun a => !(a == ',')))) =
        ['r', 'o', 'm', ' '] ++
          (X.filter (fun a => !(a == ',')) ++ ' ' :: '-' :: ' ' :: Y.filter (fun a => !(a == ','))) from rfl]
    rw [replaceAux_skip]
    rw [show fromPat = 'f' :: ['r', 'o', 'm', ' '] from rfl]
    exact replaceAux_of_head_not_mem 'f' _ [] _ hmem
  have h4 : splitHead dashPat
      (X.filter (fun a => !(a == ',')) ++ ' ' :: '-' :: ' ' :: Y.filter (fun a => !(a == ','))) =
      X.filter (fun a => !(a == ',')) := by
    rw [show (' ' :: '-' :: ' ' :: Y.filter (fun a => !(a == ','))) =
        (' ' :: ['-', ' ']) ++ Y.filter (fun a => !(a == ',')) from rfl]
    rw [show dashPat = ' ' :: ['-', ' '] from rfl]
    exact splitHead_append ' ' ['-', ' '] _ _
      (not_mem_of_all_isPriceChar _ hallX ' ' (by decide))
  unfold cleanPriceL
  rw [h1, h2, h3, h4]

theorem truthy_str_cons (c : Char) (cs : List Char) :
    (PyVal.str (String.mk (c :: cs))).truthy = true := by
  simp only [PyVal.truthy, decide_eq_true_eq]
  intro h
  exact List.noConfusion (congrArg String.data h)

theorem priceOf_eq_zero_of_parse_fail (v : PyVal)
    (h : parseFloatL (cleanPriceL (pyStr v).data) = Option.none) : priceOf v = 0 := by
  unfold priceOf
  cases htr : v.truthy
  · simp
  · simp only [if_true]
    rw [h]

/-- Claim C4: for raw price strings of the forms `"$X"` (with optional
thousands-separator commas in `X`) and `"from $X - $Y"`, the parsed
price is the numeric value of `X` (the low bound) with `$`, commas and
the `"from "` marker removed; and any raw price string whose cleaned
remainder fails to parse yields exactly 0 with no exception escaping. -/
theorem C4_price_parsing :
    (∀ (X : List Char) (r : ℚ), X.all isPriceChar = true →
        parseFloatL (X.filter (fun a => !(a == ','))) = some r →
        priceOf (PyVal.str (String.mk ('$' :: X))) = r) ∧
    (∀ (X Y : List Char) (r : ℚ), X.all isPriceChar = true → Y.all isPriceChar = true →
        parseFloatL (X.filter (fun a => !(a == ','))) = some r →
        priceOf (PyVal.str (String.mk (priceRangeChars X Y))) = r) ∧
    (∀ s : String, parseFloatL (cleanPriceL s.data) = Option.none →
        priceOf (PyVal.str s) = 0) := by
  refine ⟨?_, ?_, ?_⟩
  · intro X r hX hr
    unfold priceOf
    rw [truthy_str_cons, if_pos rfl]
    rw [show (pyStr (PyVal.str (String.mk ('$' :: X)))).data = '$' :: X from rfl]
    rw [cleanPriceL_dollar X hX, hr]
  · intro X Y r hX hY hr
    unfold priceOf
    rw [show String.mk (priceRangeChars X Y) =
        String.mk ('f' :: ('r' :: 'o' :: 'm' :: ' ' :: '$' :: (X ++ ' ' :: '-' :: ' ' :: '$' :: Y))) from rfl]
    rw [truthy_str_cons, if_pos rfl]
    rw [show (pyStr (PyVal.str (String.mk
        ('f' :: ('r' :: 'o' :: 'm' :: ' ' :: '$' :: (X ++ ' ' :: '-' :: ' ' :: '$' :: Y)))))).data =
        priceRangeChars X Y from rfl]
    rw [cleanPriceL_range X Y hX hY, hr]
  · intro s h
    unfold priceOf
    cases htr : (PyVal.str s).truthy
    · simp
    · simp only [if_true]
      rw [show (pyStr (PyVal.str s)).data = s.data from rfl, h]

theorem C4_witness :
    priceOf (PyVal.str (String.mk ['$', '1', ',', '2', '9', '9', '.', '5', '0'])) = mkRat 129950 100 ∧
    priceOf (PyVal.str (String.mk
      (priceRangeChars ['2', '9', '.', '9', '9'] ['4', '5', '.', '0', '0']))) = mkRat 2999 100 ∧
    priceOf (PyVal.str "$abc") = 0 :=
  ⟨C4_price_parsing.1 ['1', ',', '2', '9', '9', '.', '5', '0'] (mkRat 129950 100)
      (by decide) (by decide),
   C4_price_parsing.2.1 ['2', '9', '.', '9', '9'] ['4', '5', '.', '0', '0'] (mkRat 2999 100)
      (by decide) (by decide) (by decide),
   C4_price_parsing.2.2 "$abc" (by decide)⟩

theorem truthy_list_of_ne_nil (items : List PyVal) (h : items ≠ []) :
    (PyVal.list items).truthy = true := by
  cases items with
  | nil => exact absurd rfl h
  | cons a as => rfl

theorem fetch_data_of_ok (query sort_code k : String) (body : PyVal)
    (out : List Record × Option String) (hk : k ≠ "")
    (hbody : fetchBody body = Except.ok out) :
    fetch_data query sort_code (some k) (fun _ => Except.ok body) = (out, 1) := by
  unfold fetch_data
  rw [if_neg (show ¬((some k).getD "" = "") from hk)]
  rw [show runFetch ((fun _ : List (String × String) => Except.ok body)
      (querystringOf query sort_code)) = fetchBody body from rfl]
  rw [hbody]

theorem fetch_data_of_error (query sort_code k : String) (body : PyVal) (e : String)
    (hk : k ≠ "") (hbody : fetchBody body = Except.error e) :
    fetch_data query sort_code (some k) (fun _ => Except.ok body) =
      (([], some ("Server Error: " ++ e)), 1) := by
  unfold fetch_data
  rw [if_neg (show ¬((some k).getD "" = "") from hk)]
  rw [show runFetch ((fun _ : List (String × String) => Except.ok body)
      (querystringOf query sort_code)) = fetchBody body from rfl]
  rw [hbody]

theorem fetchBody_mkBody (items : List PyVal) :
    fetchBody (mkBody items) =
      if (PyVal.list items).truthy then
        match normalizeAll items with
        | Except.error e => Except.error e
        | Except.ok recs => Except.ok (recs, Option.none)
      else Except.ok ([], some "No products found.") := rfl

theorem fetchBody_mkBody_ok (items : List PyVal) (recs : List Record)
    (hne : items ≠ []) (hall : normalizeAll items = Except.ok recs) :
    fetchBody (mkBody items) = Except.ok (recs, Option.none) := by
  rw [fetchBody_mkBody, truthy_list_of_ne_nil items hne, if_pos rfl, hall]

theorem fetchBody_mkBody_error (items : List PyVal) (e : String)
    (hne : items ≠ []) (hall : normalizeAll items = Except.error e) :
    fetchBody (mkBody items) = Except.error e := by
  rw [fetchBody_mkBody, truthy_list_of_ne_nil items hne, if_pos rfl, hall]

theorem normalizeAll_error_of_mem (items : List PyVal) (item : PyVal) (e : String)
    (hm : item ∈ items) (he : normalizeItemV item = Except.error e) :
    ∃ e2, normalizeAll items = Except.error e2 := by
  induction items with
  | nil => cases hm
  | cons a as ih =>
      rcases List.mem_cons.mp hm with rfl | hm2
      · exact ⟨e, by unfold normalizeAll; rw [he]⟩
      · cases ha : normalizeItemV a with
        | error e3 => exact ⟨e3, by unfold normalizeAll; rw [ha]⟩
        | ok r =>
            obtain ⟨e2, h2⟩ := ih hm2
            exact ⟨e2, by unfold normalizeAll; rw [ha, h2]⟩

theorem isServerErrorMsg_append (cause : String) :
    isServerErrorMsg (some ("Server Error: " ++ cause)) = true := by
  rw [show isServerErrorMsg (some ("Server Error: " ++ cause)) =
      isPrefixList ("Server Error: ".data) (("Server Error: " ++ cause).data) from rfl]
  rw [String.data_append]
  exact isPrefixList_append_self _ _

/-- Claim C6: format inference is a case-sensitive substring search on
the title in the fixed order Paperback, Hardcover, Audiobook, the first
match winning and "Standard" when none matches; in particular a title
containing both "Paperback" and "Hardcover" resolves to "Paperback". -/
theorem C6_format_order :
    (∀ t : String, strContainsSub t "Paperback" = true →
        formatOf (PyVal.str t) = Except.ok "Paperback") ∧
    (∀ t : String, strContainsSub t "Paperback" = false →
        strContainsSub t "Hardcover" = true →
        formatOf (PyVal.str t) = Except.ok "Hardcover") ∧
    (∀ t : String, strContainsSub t "Paperback" = false →
        strContainsSub t "Hardcover" = false →
        strContainsSub t "Audiobook" = true →
        formatOf (PyVal.str t) = Except.ok "Audiobook") ∧
    (∀ t : String, strContainsSub t "Paperback" = false →
        strContainsSub t "Hardcover" = false →
        strContainsSub t "Audiobook" = false →
        formatOf (PyVal.str t) = Except.ok "Standard") ∧
    (∀ t : String, strContainsSub t "Paperback" = true →
        strContainsSub t "Hardcover" = true →
        formatOf (PyVal.str t) = Except.ok "Paperback") ∧
    formatOf (PyVal.str "all lowercase paperback") = Except.ok "Standard" := by
  have e1 : ∀ t : String, pyContains (PyVal.str t) "Paperback" =
      Except.ok (strContainsSub t "Paperback") := fun _ => rfl
  have e2 : ∀ t : String, pyContains (PyVal.str t) "Hardcover" =
      Except.ok (strContainsSub t "Hardcover") := fun _ => rfl
  have e3 : ∀ t : String, pyContains (PyVal.str t) "Audiobook" =
      Except.ok (strContainsSub t "Audiobook") := fun _ => rfl
  refine ⟨?_, ?_, ?_, ?_, ?_, rfl⟩
  · intro t h1
    unfold formatOf
    rw [e1 t, h1]
  · intro t h1 h2
    unfold formatOf
    rw [e1 t, h1, e2 t, h2]
  · intro t h1 h2 h3
    unfold formatOf
    rw [e1 t, h1, e2 t, h2, e3 t, h3]
  · intro t h1 h2 h3
    unfold formatOf
    rw [e1 t, h1, e2 t, h2, e3 t, h3]
  · intro t h1 _
    unfold formatOf
    rw [e1 t, h1]

theorem C6_witness :
    formatOf (PyVal.str "Clean Code Paperback Edition") = Except.ok "Paperback" ∧
    formatOf (PyVal.str "Atlas Hardcover Deluxe") = Except.ok "Hardcover" ∧
    formatOf (PyVal.str "Dune Audiobook") = Except.ok "Audiobook" ∧
    formatOf (PyVal.str "Plain Title") = Except.ok "Standard" ∧
    formatOf (PyVal.str "Combo Paperback Hardcover") = Except.ok "Paperback" :=
  ⟨C6_format_order.1 "Clean Code Paperback Edition" (by decide),
   C6_format_order.2.1 "Atlas Hardcover Deluxe" (by decide) (by decide),
   C6_format_order.2.2.1 "Dune Audiobook" (by decide) (by decide) (by decide),
   C6_format_order.2.2.2.1 "Plain Title" (by decide) (by decide) (by decide),
   C6_format_order.2.2.2.2.1 "Combo Paperback Hardcover" (by decide) (by decide)⟩

/-- Claim C7: with no API key configured, `fetch_data` returns the empty
record set paired with exactly "Missing API key in environment
variables." and performs zero network calls (the credential check
precedes the network step), for every query, sort code and network
behaviour. -/
theorem C7_missing_key (query sort_code : String)
    (net : List (String × String) → Except String PyVal) :
    fetch_data query sort_code Option.none net =
      (([], some "Missing API key in environment variables."), 0) := rfl

/-- Claim C8: whenever `data.products` of the decoded body resolves to
the empty array (in particular when the `data` or `products` level is
missing, since a missing level defaults to `{}` / `[]`), `fetch_data`
returns the empty record sequence paired with exactly "No products
found.". -/
theorem C8_no_products (query sort_code k : String) (body d1 : PyVal)
    (hk : k ≠ "")
    (h1 : pyGetAttrD body "data" (PyVal.dict []) = Except.ok d1)
    (h2 : pyGetAttrD d1 "products" (PyVal.list []) = Except.ok (PyVal.list [])) :
    fetch_data query sort_code (some k) (fun _ => Except.ok body) =
      (([], some "No products found."), 1) := by
  have hbody : fetchBody body = Except.ok ([], some "No products found.") := by
    unfold fetchBody
    simp only [h1, h2]
    rfl
  exact fetch_data_of_ok query sort_code k body _ hk hbody

theorem C8_witness :
    fetch_data "programming books" "RELEVANCE" (some "key")
      (fun _ => Except.ok (PyVal.dict [])) =
      (([], some "No products found."), 1) :=
  C8_no_products "programming books" "RELEVANCE" "key" (PyVal.dict []) (PyVal.dict [])
    (by decide) rfl rfl

theorem normalizeItemD_price_irrelevant (v : PyVal) (fields : List (String × PyVal))
    (h : parseFloatL (cleanPriceL (pyStr v).data) = Option.none) :
    normalizeItemD (("product_price", v) :: fields) =
      normalizeItemD (("product_price", PyVal.none) :: fields) := by
  unfold normalizeItemD
  rw [show dictGetD (("product_price", v) :: fields) "product_star_rating" PyVal.none =
      dictGetD fields "product_star_rating" PyVal.none from rfl]
  rw [show dictGetD (("product_price", PyVal.none) :: fields) "product_star_rating" PyVal.none =
      dictGetD fields "product_star_rating" PyVal.none from rfl]
  rw [show dictGetD (("product_price", v) :: fields) "product_num_ratings" PyVal.none =
      dictGetD fields "product_num_ratings" PyVal.none from rfl]
  rw [show dictGetD (("product_price", PyVal.none) :: fields) "product_num_ratings" PyVal.none =
      dictGetD fields "product_num_ratings" PyVal.none from rfl]
  rw [show dictGetD (("product_price", v) :: fields) "product_title" (PyVal.str "Unknown") =
      dictGetD fields "product_title" (PyVal.str "Unknown") from rfl]
  rw [show dictGetD (("product_price", PyVal.none) :: fields) "product_title" (PyVal.str "Unknown") =
      dictGetD fields "product_title" (PyVal.str "Unknown") from rfl]
  rw [show dictGetD (("product_price", v) :: fields) "is_best_seller" PyVal.none =
      dictGetD fields "is_best_seller" PyVal.none from rfl]
  rw [show dictGetD (("product_price", PyVal.none) :: fields) "is_best_seller" PyVal.none =
      dictGetD fields "is_best_seller" PyVal.none from rfl]
  rw [show dictGetD (("product_price", v) :: fields) "product_photo" (PyVal.str "") =
      dictGetD fields "product_photo" (PyVal.str "") from rfl]
  rw [show dictGetD (("product_price", PyVal.none) :: fields) "product_photo" (PyVal.str "") =
      dictGetD fields "product_photo" (PyVal.str "") from rfl]
  rw [show dictGetD (("product_price", v) :: fields) "product_url" (PyVal.str "#") =
      dictGetD fields "product_url" (PyVal.str "#") from rfl]
  rw [show dictGetD (("product_price", PyVal.none) :: fields) "product_url" (PyVal.str "#") =
      dictGetD fields "product_url" (PyVal.str "#") from rfl]
  rw [show dictGetD (("product_price", v) :: fields) "product_price" PyVal.none = v from rfl]
  rw [show dictGetD (("product_price", PyVal.none) :: fields) "product_price" PyVal.none =
      PyVal.none from rfl]
  rw [priceOf_eq_zero_of_parse_fail v h]
  rw [show priceOf PyVal.none = (0 : ℚ) from rfl]

theorem ratingOf_str_fail (sr : String) (hsr : sr ≠ "")
    (hpf : parseFloatL sr.data = Option.none) :
    ratingOf (PyVal.str sr) = Except.error ("could not convert string to float: " ++ sr) := by
  have htr : (PyVal.str sr).truthy = true := by
    simp [PyVal.truthy, hsr]
  unfold ratingOf
  rw [htr, if_pos rfl]
  rw [show pyFloat (PyVal.str sr) =
      (match parseFloatL sr.data with
        | some q => Except.ok q
        | Option.none => Except.error ("could not convert string to float: " ++ sr)) from rfl]
  rw [hpf]

theorem fetch_aborts_of_bad_item (query sort_code k : String) (pre post : List PyVal)
    (fields : List (String × PyVal)) (e : String) (hk : k ≠ "")
    (he : normalizeItemD fields = Except.error e) :
    (fetch_data query sort_code (some k)
        (fun _ => Except.ok (mkBody (pre ++ PyVal.dict fields :: post)))).1.1 = [] ∧
    isServerErrorMsg (fetch_data query sort_code (some k)
        (fun _ => Except.ok (mkBody (pre ++ PyVal.dict fields :: post)))).1.2 = true ∧
    (fetch_data query sort_code (some k)
        (fun _ => Except.ok (mkBody (pre ++ PyVal.dict fields :: post)))).2 = 1 := by
  have heV : normalizeItemV (PyVal.dict fields) = Except.error e := by
    rw [show normalizeItemV (PyVal.dict fields) = normalizeItemD fields from rfl, he]
  obtain ⟨e2, h2⟩ := normalizeAll_error_of_mem (pre ++ PyVal.dict fields :: post)
    (PyVal.dict fields) e (List.mem_append.mpr (Or.inr (List.mem_cons_self _ _))) heV
  have hne : pre ++ PyVal.dict fields :: post ≠ [] := by
    intro hc
    exact absurd (List.append_eq_nil.mp hc).2 (List.cons_ne_nil _ _)
  have hfb := fetchBody_mkBody_error _ e2 hne h2
  have hfd := fetch_data_of_error query sort_code k _ e2 hk hfb
  rw [hfd]
  exact ⟨rfl, isServerErrorMsg_append e2, rfl⟩

/-- Claim C1 (corrected): a parse failure in the PRICE field is caught
and defaulted to 0.0 without affecting the other fields of the item, the
other items, or the success of the whole normalization (first conjunct:
an unparseable present price behaves exactly like a null price).  But
contrary to the claim, a present non-numeric string in
`product_star_rating` is NOT caught: `float` raises, the whole batch is
aborted, and `fetch_data` returns zero records with a
"Server Error: <cause>" string (remaining conjuncts). -/
theorem C1_amended (v : PyVal) (fields : List (String × PyVal))
    (query sort_code k : String) (pre post : List PyVal)
    (fields2 : List (String × PyVal)) (sr : String)
    (hv : parseFloatL (cleanPriceL (pyStr v).data) = Option.none)
    (hk : k ≠ "")
    (hl : lookupKey fields2 "product_star_rating" = some (PyVal.str sr))
    (hsr : sr ≠ "") (hpf : parseFloatL sr.data = Option.none) :
    normalizeItemD (("product_price", v) :: fields) =
      normalizeItemD (("product_price", PyVal.none) :: fields) ∧
    (fetch_data query sort_code (some k)
        (fun _ => Except.ok (mkBody (pre ++ PyVal.dict fields2 :: post)))).1.1 = [] ∧
    isServerErrorMsg (fetch_data query sort_code (some k)
        (fun _ => Except.ok (mkBody (pre ++ PyVal.dict fields2 :: post)))).1.2 = true ∧
    (fetch_data query sort_code (some k)
        (fun _ => Except.ok (mkBody (pre ++ PyVal.dict fields2 :: post)))).2 = 1 := by
  refine ⟨normalizeItemD_price_irrelevant v fields hv, ?_⟩
  have ht2 : dictGetD fields2 "product_star_rating" PyVal.none = PyVal.str sr := by
    unfold dictGetD
    rw [hl]
    rfl
  have hitem : normalizeItemD fields2 =
      Except.error ("could not convert string to float: " ++ sr) := by
    unfold normalizeItemD
    rw [ht2, ratingOf_str_fail sr hsr hpf]
  exact fetch_aborts_of_bad_item query sort_code k pre post fields2 _ hk hitem

/-- Counterexample to claim C1 as stated: a one-item product list whose
`product_star_rating` is the present non-numeric string "abc" does not
yield one normalized record and no error; it yields zero records and a
Server Error string. -/
theorem C1_counterexample :
    [c1CexItem].length = 1 ∧
    fetch_data "q" "s" (some "key") (fun _ => Except.ok (mkBody [c1CexItem])) =
      (([], some "Server Error: could not convert string to float: abc"), 1) :=
  ⟨rfl, rfl⟩

theorem C1_witness :
    normalizeItemD [("product_price", PyVal.str "$bad")] =
      normalizeItemD [("product_price", PyVal.none)] ∧
    (fetch_data "q" "s" (some "key")
        (fun _ => Except.ok (mkBody [PyVal.dict [("product_star_rating", PyVal.str "4,7")]]))).1.1 = [] ∧
    isServerErrorMsg (fetch_data "q" "s" (some "key")
        (fun _ => Except.ok (mkBody [PyVal.dict [("product_star_rating", PyVal.str "4,7")]]))).1.2 = true ∧
    (fetch_data "q" "s" (some "key")
        (fun _ => Except.ok (mkBody [PyVal.dict [("product_star_rating", PyVal.str "4,7")]]))).2 = 1 :=
  C1_amended (PyVal.str "$bad") [] "q" "s" "key" [] []
    [("product_star_rating", PyVal.str "4,7")] "4,7"
    (by decide) (by decide) rfl (by decide) (by decide)

theorem normalizeItemD_error_of_null_title (fields : List (String × PyVal))
    (h : lookupKey fields "product_title" = some PyVal.none) :
    ∃ e, normalizeItemD fields = Except.error e := by
  have ht : dictGetD fields "product_title" (PyVal.str "Unknown") = PyVal.none := by
    unfold dictGetD
    rw [h]
    rfl
  unfold normalizeItemD
  rw [ht]
  cases h1 : ratingOf (dictGetD fields "product_star_rating" PyVal.none) with
  | error e => exact ⟨e, rfl⟩
  | ok r =>
      cases h2 : reviewsOf (dictGetD fields "product_num_ratings" PyVal.none) with
      | error e => exact ⟨e, rfl⟩
      | ok rv => exact ⟨"argument of type NoneType is not iterable", rfl⟩

/-- Claim C9: an item whose `product_title` key is present but bound to
null does not produce a degraded record; the whole batch is aborted and
`fetch_data` returns an empty record set with a "Server Error: <cause>"
string (first three conjuncts).  Only a completely absent title key is
defaulted to "Unknown" (last conjunct). -/
theorem C9_null_title (query sort_code k : String) (pre post : List PyVal)
    (fields fs : List (String × PyVal)) (r : Record)
    (hk : k ≠ "")
    (ht : lookupKey fields "product_title" = some PyVal.none)
    (habs : lookupKey fs "product_title" = Option.none)
    (hok : normalizeItemD fs = Except.ok r) :
    (fetch_data query sort_code (some k)
        (fun _ => Except.ok (mkBody (pre ++ PyVal.dict fields :: post)))).1.1 = [] ∧
    isServerErrorMsg (fetch_data query sort_code (some k)
        (fun _ => Except.ok (mkBody (pre ++ PyVal.dict fields :: post)))).1.2 = true ∧
    (fetch_data query sort_code (some k)
        (fun _ => Except.ok (mkBody (pre ++ PyVal.dict fields :: post)))).2 = 1 ∧
    r.Title = PyVal.str "Unknown" := by
  obtain ⟨e, he⟩ := normalizeItemD_error_of_null_title fields ht
  obtain ⟨ha, hb, hc⟩ := fetch_aborts_of_bad_item query sort_code k pre post fields e hk he
  refine ⟨ha, hb, hc, ?_⟩
  have ht2 : dictGetD fs "product_title" (PyVal.str "Unknown") = PyVal.str "Unknown" := by
    unfold dictGetD
    rw [habs]
    rfl
  unfold normalizeItemD at hok
  rw [ht2] at hok
  cases h1 : ratingOf (dictGetD fs "product_star_rating" PyVal.none) with
  | error e1 =>
      rw [h1] at hok
      exact Except.noConfusion hok
  | ok r1 =>
      rw [h1] at hok
      cases h2 : reviewsOf (dictGetD fs "product_num_ratings" PyVal.none) with
      | error e2 =>
          rw [h2] at hok
          exact Except.noConfusion hok
      | ok r2 =>
          rw [h2] at hok
          rw [show formatOf (PyVal.str "Unknown") = Except.ok "Standard" from rfl] at hok
          injection hok with h3
          rw [← h3]

theorem C9_witness :
    (fetch_data "q" "s" (some "key")
        (fun _ => Except.ok (mkBody [PyVal.dict [("product_title", PyVal.none)]]))).1.1 = [] ∧
    isServerErrorMsg (fetch_data "q" "s" (some "key")
        (fun _ => Except.ok (mkBody [PyVal.dict [("product_title", PyVal.none)]]))).1.2 = true ∧
    (fetch_data "q" "s" (some "key")
        (fun _ => Except.ok (mkBody [PyVal.dict [("product_title", PyVal.none)]]))).2 = 1 ∧
    Record.Title
      { Title := PyVal.str "Unknown", Rating := 0, Reviews := 0, Price := 0,
        Format := "Standard", Best_Seller := PyVal.str "No",
        Image := PyVal.str "", Link := PyVal.str "#" } = PyVal.str "Unknown" :=
  C9_null_title "q" "s" "key" [] [] [("product_title", PyVal.none)] []
    { Title := PyVal.str "Unknown", Rating := 0, Reviews := 0, Price := 0,
      Format := "Standard", Best_Seller := PyVal.str "No",
      Image := PyVal.str "", Link := PyVal.str "#" }
    (by decide) rfl rfl rfl

theorem normalizeAll_ok_length (items : List PyVal) (recs : List Record)
    (h : normalizeAll items = Except.ok recs) : recs.length = items.length := by
  induction items generalizing recs with
  | nil =>
      unfold normalizeAll at h
      injection h with h2
      rw [← h2]
      rfl
  | cons a as ih =>
      unfold normalizeAll at h
      cases h1 : normalizeItemV a with
      | error e =>
          rw [h1] at h
          exact Except.noConfusion h
      | ok r =>
          rw [h1] at h
          cases h2 : normalizeAll as with
          | error e =>
              rw [h2] at h
              exact Except.noConfusion h
          | ok rs =>
              rw [h2] at h
              injection h with h3
              rw [← h3]
              simp [ih rs h2]

theorem normalizeAll_ok_get (items : List PyVal) (recs : List Record) (i : ℕ)
    (h : normalizeAll items = Except.ok recs) (hi : i < items.length) :
    normalizeItemV (items.getD i PyVal.none) = Except.ok (recs.getD i defaultRecord) := by
  induction items generalizing recs i with
  | nil => exact absurd hi (Nat.not_lt_zero i)
  | cons a as ih =>
      unfold normalizeAll at h
      cases h1 : normalizeItemV a with
      | error e =>
          rw [h1] at h
          exact Except.noConfusion h
      | ok r =>
          rw [h1] at h
          cases h2 : normalizeAll as with
          | error e =>
              rw [h2] at h
              exact Except.noConfusion h
          | ok rs =>
              rw [h2] at h
              injection h with h3
              rw [← h3]
              cases i with
              | zero => simpa using h1
              | succ j =>
                  have hj : j < as.length := Nat.lt_of_succ_lt_succ (by simpa using hi)
                  simpa using ih rs j h2 hj

/-- Claim C3 (corrected): for a non-empty product list in which every
item normalizes without an uncaught exception, the output is exactly one
record per input item, in input order (all three conjuncts).  The
universal claim as stated is false: an item whose rating or review field
raises aborts the whole batch (see the counterexample). -/
theorem C3_amended (query sort_code k : String) (items : List PyVal)
    (recs : List Record) (i : ℕ) (hk : k ≠ "") (hne : items ≠ [])
    (hall : normalizeAll items = Except.ok recs) (hi : i < items.length) :
    fetch_data query sort_code (some k) (fun _ => Except.ok (mkBody items)) =
      ((recs, Option.none), 1) ∧
    recs.length = items.length ∧
    normalizeItemV (items.getD i PyVal.none) = Except.ok (recs.getD i defaultRecord) :=
  ⟨fetch_data_of_ok query sort_code k (mkBody items) (recs, Option.none) hk
      (fetchBody_mkBody_ok items recs hne hall),
   normalizeAll_ok_length items recs hall,
   normalizeAll_ok_get items recs i hall hi⟩

/-- Counterexample to claim C3 as stated: a one-item product list (N=1)
whose review count is the non-numeric string "N/A" yields zero records,
not one record per input item. -/
theorem C3_counterexample :
    [c3CexItem].length = 1 ∧
    (fetch_data "q" "s" (some "key") (fun _ => Except.ok (mkBody [c3CexItem]))).1.1.length = 0 ∧
    (fetch_data "q" "s" (some "key") (fun _ => Except.ok (mkBody [c3CexItem]))).1.2 =
      some "Server Error: invalid literal for int() with base 10: N/A" :=
  ⟨rfl, rfl, rfl⟩

theorem C3_witness :
    fetch_data "q" "s" (some "key") (fun _ => Except.ok (mkBody [witnessItem])) =
      (([witnessRec], Option.none), 1) ∧
    [witnessRec].length = [witnessItem].length ∧
    normalizeItemV ([witnessItem].getD 0 PyVal.none) =
      Except.ok ([witnessRec].getD 0 defaultRecord) :=
  C3_amended "q" "s" "key" [witnessItem] [witnessRec] 0 (by decide)
    (List.cons_ne_nil _ _) rfl (by decide)

theorem normalizeItemD_ok_elim (fields : List (String × PyVal)) (r : Record)
    (hok : normalizeItemD fields = Except.ok r) :
    r.Price = priceOf (dictGetD fields "product_price" PyVal.none) ∧
    ratingOf (dictGetD fields "product_star_rating" PyVal.none) = Except.ok r.Rating ∧
    reviewsOf (dictGetD fields "product_num_ratings" PyVal.none) = Except.ok r.Reviews ∧
    r.Title = dictGetD fields "product_title" (PyVal.str "Unknown") ∧
    r.Best_Seller = (if (dictGetD fields "is_best_seller" PyVal.none).truthy then
      PyVal.str "Yes" else PyVal.str "No") := by
  unfold normalizeItemD at hok
  cases h1 : ratingOf (dictGetD fields "product_star_rating" PyVal.none) with
  | error e =>
      rw [h1] at hok
      exact Except.noConfusion hok
  | ok rating =>
      rw [h1] at hok
      cases h2 : reviewsOf (dictGetD fields "product_num_ratings" PyVal.none) with
      | error e =>
          rw [h2] at hok
          exact Except.noConfusion hok
      | ok reviews =>
          rw [h2] at hok
          cases h3 : formatOf (dictGetD fields "product_title" (PyVal.str "Unknown")) with
          | error e =>
              rw [h3] at hok
              exact Except.noConfusion hok
          | ok fmt =>
              rw [h3] at hok
              injection hok with h4
              rw [← h4]
              exact ⟨rfl, rfl, rfl, rfl, rfl⟩

theorem normalizeItemD_eq_of_lookups (f g : List (String × PyVal))
    (hp : priceOf (dictGetD f "product_price" PyVal.none) =
      priceOf (dictGetD g "product_price" PyVal.none))
    (hr : ratingOf (dictGetD f "product_star_rating" PyVal.none) =
      ratingOf (dictGetD g "product_star_rating" PyVal.none))
    (hn : reviewsOf (dictGetD f "product_num_ratings" PyVal.none) =
      reviewsOf (dictGetD g "product_num_ratings" PyVal.none))
    (ht : dictGetD f "product_title" (PyVal.str "Unknown") =
      dictGetD g "product_title" (PyVal.str "Unknown"))
    (hb : dictGetD f "is_best_seller" PyVal.none = dictGetD g "is_best_seller" PyVal.none)
    (hi : dictGetD f "product_photo" (PyVal.str "") = dictGetD g "product_photo" (PyVal.str ""))
    (hu : dictGetD f "product_url" (PyVal.str "#") = dictGetD g "product_url" (PyVal.str "#")) :
    normalizeItemD f = normalizeItemD g := by
  unfold normalizeItemD
  rw [hp, hr, hn, ht, hb, hi, hu]

theorem priceOf_falsy (v : PyVal) (hv : v.truthy = false) : priceOf v = 0 := by
  unfold priceOf
  rw [hv]
  simp

theorem ratingOf_falsy (v : PyVal) (hv : v.truthy = false) : ratingOf v = Except.ok 0 := by
  unfold ratingOf
  rw [hv]
  simp

theorem reviewsOf_falsy (v : PyVal) (hv : v.truthy = false) : reviewsOf v = Except.ok 0 := by
  unfold reviewsOf
  rw [hv]
  simp

/-- Counterexample to claim C2 as stated: the record produced for the
end-to-end example item is not the claimed one — the claimed BestSeller
field is the boolean True, but the code stores the string "Yes". -/
theorem C2_counterexample :
    normalizeItemV c2Item ≠ Except.ok c2ClaimedRec ∧
    c2ActualRec.Best_Seller = PyVal.str "Yes" ∧
    c2ClaimedRec.Best_Seller = PyVal.bool true := by
  refine ⟨?_, rfl, rfl⟩
  intro h
  have h1 : normalizeItemV c2Item = Except.ok c2ActualRec := rfl
  rw [h1] at h
  injection h with h2
  exact PyVal.noConfusion (congrArg Record.Best_Seller h2)

/-- Claim C2 (corrected): the end-to-end example item normalizes to
exactly the claimed record except in the best-seller field, which is the
string "Yes" (the truthiness of the raw flag rendered as "Yes"/"No"),
not a boolean: Title "Clean Code Paperback Edition", Price 29.99
(= 2999/100), Rating 4.7 (= 47/10), Reviews 1500, Format "Paperback",
Best_Seller "Yes", Image "", Link "#". -/
theorem C2_amended : normalizeItemV c2Item = Except.ok c2ActualRec ∧
    c2ActualRec.Price = mkRat 2999 100 ∧ c2ActualRec.Rating = mkRat 47 10 :=
  ⟨rfl, rfl, rfl⟩

/-- Claim C5: when the price / rating / review-count field is absent the
corresponding output field is exactly 0.0 / 0.0 / 0 (first three
conjuncts), and the absence alone never makes the item fail: with all
three absent and a healthy title the item still normalizes (last
conjunct). -/
theorem C5_missing_fields (fields1 fields2 fields3 fields4 : List (String × PyVal))
    (r1 r2 r3 : Record)
    (h1 : lookupKey fields1 "product_price" = Option.none)
    (hok1 : normalizeItemD fields1 = Except.ok r1)
    (h2 : lookupKey fields2 "product_star_rating" = Option.none)
    (hok2 : normalizeItemD fields2 = Except.ok r2)
    (h3 : lookupKey fields3 "product_num_ratings" = Option.none)
    (hok3 : normalizeItemD fields3 = Except.ok r3)
    (h4p : lookupKey fields4 "product_price" = Option.none)
    (h4r : lookupKey fields4 "product_star_rating" = Option.none)
    (h4n : lookupKey fields4 "product_num_ratings" = Option.none)
    (h4t : isOkE (formatOf (dictGetD fields4 "product_title" (PyVal.str "Unknown"))) = true) :
    r1.Price = 0 ∧ r2.Rating = 0 ∧ r3.Reviews = 0 ∧
    isOkE (normalizeItemD fields4) = true := by
  have hd1 : dictGetD fields1 "product_price" PyVal.none = PyVal.none := by
    unfold dictGetD
    rw [h1]
    rfl
  have hd2 : dictGetD fields2 "product_star_rating" PyVal.none = PyVal.none := by
    unfold dictGetD
    rw [h2]
    rfl
  have hd3 : dictGetD fields3 "product_num_ratings" PyVal.none = PyVal.none := by
    unfold dictGetD
    rw [h3]
    rfl
  refine ⟨?_, ?_, ?_, ?_⟩
  · rw [(normalizeItemD_ok_elim fields1 r1 hok1).1, hd1]
    rfl
  · have hr := (normalizeItemD_ok_elim fields2 r2 hok2).2.1
    rw [hd2] at hr
    injection hr with h
    exact h.symm
  · have hn := (normalizeItemD_ok_elim fields3 r3 hok3).2.2.1
    rw [hd3] at hn
    injection hn with h
    exact h.symm
  · have hd4p : dictGetD fields4 "product_price" PyVal.none = PyVal.none := by
      unfold dictGetD
      rw [h4p]
      rfl
    have hd4r : dictGetD fields4 "product_star_rating" PyVal.none = PyVal.none := by
      unfold dictGetD
      rw [h4r]
      rfl
    have hd4n : dictGetD fields4 "product_num_ratings" PyVal.none = PyVal.none := by
      unfold dictGetD
      rw [h4n]
      rfl
    cases hf : formatOf (dictGetD fields4 "product_title" (PyVal.str "Unknown")) with
    | error e =>
        rw [hf] at h4t
        exact Bool.noConfusion h4t
    | ok fmt =>
        unfold normalizeItemD
        rw [hd4r, show ratingOf PyVal.none = Except.ok 0 from rfl]
        rw [hd4n, show reviewsOf PyVal.none = Except.ok 0 from rfl]
        rw [hf]
        rfl

theorem C5_witness :
    Record.Price
      { Title := PyVal.str "Unknown", Rating := 0, Reviews := 0, Price := 0,
        Format := "Standard", Best_Seller := PyVal.str "No",
        Image := PyVal.str "", Link := PyVal.str "#" } = 0 ∧
    Record.Rating
      { Title := PyVal.str "Unknown", Rating := 0, Reviews := 0, Price := 0,
        Format := "Standard", Best_Seller := PyVal.str "No",
        Image := PyVal.str "", Link := PyVal.str "#" } = 0 ∧
    Record.Reviews
      { Title := PyVal.str "Unknown", Rating := 0, Reviews := 0, Price := 0,
        Format := "Standard", Best_Seller := PyVal.str "No",
        Image := PyVal.str "", Link := PyVal.str "#" } = 0 ∧
    isOkE (normalizeItemD []) = true :=
  C5_missing_fields [] [] [] []
    { Title := PyVal.str "Unknown", Rating := 0, Reviews := 0, Price := 0,
      Format := "Standard", Best_Seller := PyVal.str "No",
      Image := PyVal.str "", Link := PyVal.str "#" }
    { Title := PyVal.str "Unknown", Rating := 0, Reviews := 0, Price := 0,
      Format := "Standard", Best_Seller := PyVal.str "No",
      Image := PyVal.str "", Link := PyVal.str "#" }
    { Title := PyVal.str "Unknown", Rating := 0, Reviews := 0, Price := 0,
      Format := "Standard", Best_Seller := PyVal.str "No",
      Image := PyVal.str "", Link := PyVal.str "#" }
    rfl rfl rfl rfl rfl rfl rfl rfl rfl rfl

/-- Claim C10: a price / rating / review-count field that is present but
bound to a falsy value (null, numeric zero, empty string, False, or an
empty container) behaves exactly as if the field were absent: no parsing
is attempted and the whole item normalizes identically (so even a falsy
UNPARSEABLE value such as the empty string cannot raise). -/
theorem C10_falsy_fields (v1 v2 v3 : PyVal) (f1 f2 f3 : List (String × PyVal))
    (hv1 : v1.truthy = false) (hl1 : lookupKey f1 "product_price" = Option.none)
    (hv2 : v2.truthy = false) (hl2 : lookupKey f2 "product_star_rating" = Option.none)
    (hv3 : v3.truthy = false) (hl3 : lookupKey f3 "product_num_ratings" = Option.none) :
    normalizeItemD (("product_price", v1) :: f1) = normalizeItemD f1 ∧
    normalizeItemD (("product_star_rating", v2) :: f2) = normalizeItemD f2 ∧
    normalizeItemD (("product_num_ratings", v3) :: f3) = normalizeItemD f3 := by
  refine ⟨?_, ?_, ?_⟩
  · refine normalizeItemD_eq_of_lookups _ _ ?_ rfl rfl rfl rfl rfl rfl
    rw [show dictGetD (("product_price", v1) :: f1) "product_price" PyVal.none = v1 from rfl]
    rw [show dictGetD f1 "product_price" PyVal.none = PyVal.none from by
      unfold dictGetD
      rw [hl1]
      rfl]
    rw [priceOf_falsy v1 hv1]
    rfl
  · refine normalizeItemD_eq_of_lookups _ _ rfl ?_ rfl rfl rfl rfl rfl
    rw [show dictGetD (("product_star_rating", v2) :: f2) "product_star_rating" PyVal.none =
      v2 from rfl]
    rw [show dictGetD f2 "product_star_rating" PyVal.none = PyVal.none from by
      unfold dictGetD
      rw [hl2]
      rfl]
    rw [ratingOf_falsy v2 hv2]
    rfl
  · refine normalizeItemD_eq_of_lookups _ _ rfl rfl ?_ rfl rfl rfl rfl
    rw [show dictGetD (("product_num_ratings", v3) :: f3) "product_num_ratings" PyVal.none =
      v3 from rfl]
    rw [show dictGetD f3 "product_num_ratings" PyVal.none = PyVal.none from by
      unfold dictGetD
      rw [hl3]
      rfl]
    rw [reviewsOf_falsy v3 hv3]
    rfl

theorem C10_witness :
    normalizeItemD [("product_price", PyVal.str "")] = normalizeItemD [] ∧
    normalizeItemD [("product_star_rating", PyVal.int 0)] = normalizeItemD [] ∧
    normalizeItemD [("product_num_ratings", PyVal.bool false)] = normalizeItemD [] :=
  C10_falsy_fields (PyVal.str "") (PyVal.int 0) (PyVal.bool false) [] [] []
    (by decide) rfl (by decide) rfl rfl rfl
